import Mathlib

/-!
Shallow embedding of the Filigree card-grid controller
(`src/README.md`, TypeScript `FiligreeComponent` and `FiligreeState`
classes, plus `src/src/main.ts`), together with theorems settling the
frozen claims about it.

Conventions: TypeScript optional fields become `Option`; `undefined`
and falsy-string coalescing (`x || d`) are modelled explicitly; DOM
queries return `Option`; a thrown `TypeError` from dereferencing a
null element becomes `Except.error`.
-/

/-- Grid position of a card (README `IntegrationCard.gridPosition`):
column is 1 or 2, row a positive number. -/
structure GridPosition where
  column : Nat
  row : Nat
deriving DecidableEq, Repr

/-- The `link` sub-record of a text card (README `IntegrationCard.link`). -/
structure CardLink where
  text : String
  url : String
  icon : Option String
deriving DecidableEq, Repr

/-- The card variant tag (README `IntegrationCard.type`: a union of the
string literals for text and image). -/
inductive CardType where
  | text : CardType
  | image : CardType
deriving DecidableEq, Repr

/-- README `IntegrationCard`: id, variant tag, optional text fields,
optional image fields, optional link, and a grid position. -/
structure IntegrationCard where
  id : Int
  type : CardType
  title : Option String
  description : Option String
  icon : Option String
  imageUrl : Option String
  altText : Option String
  link : Option CardLink
  gridPosition : GridPosition
deriving DecidableEq, Repr

/-- README `FiligreeConfig.breakpoints`. -/
structure Breakpoints where
  mobile : Nat
  tablet : Nat
  desktop : Nat
deriving DecidableEq, Repr

/-- README `FiligreeConfig` as owned by the controller after the
constructor merge: every field present. -/
structure FiligreeConfig where
  title : String
  cards : List IntegrationCard
  containerWidth : String
  gridGap : String
  breakpoints : Breakpoints
deriving DecidableEq, Repr

/-- README `ComponentState`: the three responsive flags and the
optional active card. -/
structure ComponentState where
  isMobile : Bool
  isTablet : Bool
  isDesktop : Bool
  activeCard : Option Int := none
deriving DecidableEq, Repr

/-- The default breakpoints merged in by the constructor
(`mobile: 768, tablet: 900, desktop: 1024`, README lines 236-238). -/
def defaultBreakpoints : Breakpoints :=
  { mobile := 768, tablet := 900, desktop := 1024 }

/-- The responsive state set by the constructor (README lines 242-246):
`isMobile := width < bp.mobile`, `isTablet := width < bp.tablet`,
`isDesktop := width >= bp.tablet`; `activeCard` is left undefined. -/
def initState (width : Nat) (bp : Breakpoints) : ComponentState :=
  { isMobile := width < bp.mobile
    isTablet := width < bp.tablet
    isDesktop := width ≥ bp.tablet
    activeCard := none }

/-- The responsive state recomputed by `handleResize` (README lines
291-297): the same three comparisons against the breakpoints, built as
a fresh object, so `activeCard` is again undefined. -/
def handleResizeState (width : Nat) (bp : Breakpoints) : ComponentState :=
  { isMobile := width < bp.mobile
    isTablet := width < bp.tablet
    isDesktop := width ≥ bp.tablet
    activeCard := none }

/-- How many of the three tier flags of a state are set. -/
def tierFlagCount (s : ComponentState) : Nat :=
  (if s.isMobile then 1 else 0) + (if s.isTablet then 1 else 0) +
    (if s.isDesktop then 1 else 0)

/-- JavaScript falsy coalescing `x || d` on an optional string field:
`undefined` and the empty string both fall back to the default. -/
def orFalsy (v : Option String) (d : String) : String :=
  match v with
  | none => d
  | some s => if s = "" then d else s

/-- JavaScript falsy coalescing `x || d` on an optional numeric field:
`undefined` and `0` both fall back to the default. -/
def orFalsyNat (v : Option Nat) (d : Nat) : Nat :=
  match v with
  | none => d
  | some n => if n = 0 then d else n

/-- Modelled from the spec: the source `getDefaultCards` (README lines
254-271) lists only the first card in full and elides the other five
behind a comment, so the full default set is missing from src. The
spec fixes the default configuration at six cards arranged in the
2-by-3 alternating grid (text/image, image/text, text/image); the
five elided cards are reconstructed here with distinct ids 2-6
following that pattern. -/
def getDefaultCards : List IntegrationCard :=
  [ { id := 1, type := CardType.text, title := some "Pre-built plugins"
      description := some "Seamlessly integrate our platform with popular e-commerce systems such as Shopify, WooCommerce, and more."
      icon := some "<svg>...</svg>", imageUrl := none, altText := none
      link := some { text := "Setup Guide", url := "#", icon := some "<svg>...</svg>" }
      gridPosition := { column := 1, row := 1 } }
  , { id := 2, type := CardType.image, title := none, description := none
      icon := none
      imageUrl := some "https://images.pexels.com/photos/2422286/pexels-photo-2422286.jpeg"
      altText := some "Integration preview", link := none
      gridPosition := { column := 2, row := 1 } }
  , { id := 3, type := CardType.image, title := none, description := none
      icon := none
      imageUrl := some "https://images.pexels.com/photos/3184292/pexels-photo-3184292.jpeg"
      altText := some "Dashboard preview", link := none
      gridPosition := { column := 1, row := 2 } }
  , { id := 4, type := CardType.text, title := some "Developer API"
      description := some "Build custom integrations against our documented REST endpoints."
      icon := some "<svg>...</svg>", imageUrl := none, altText := none
      link := some { text := "API Reference", url := "#", icon := some "<svg>...</svg>" }
      gridPosition := { column := 2, row := 2 } }
  , { id := 5, type := CardType.text, title := some "No-code connectors"
      description := some "Connect through automation platforms without writing code."
      icon := some "<svg>...</svg>", imageUrl := none, altText := none
      link := some { text := "Browse Connectors", url := "#", icon := some "<svg>...</svg>" }
      gridPosition := { column := 1, row := 3 } }
  , { id := 6, type := CardType.image, title := none, description := none
      icon := none
      imageUrl := some "https://images.pexels.com/photos/1181467/pexels-photo-1181467.jpeg"
      altText := some "Workflow preview", link := none
      gridPosition := { column := 2, row := 3 } } ]

/-- The partial configuration accepted by the constructor: each of the
five recognized options may be absent (`Partial FiligreeConfig` at the
typed level). -/
structure ConfigInput where
  title : Option String := none
  cards : Option (List IntegrationCard) := none
  containerWidth : Option String := none
  gridGap : Option String := none
  breakpoints : Option Breakpoints := none
deriving DecidableEq, Repr

/-- The constructor merge (README lines 230-240): each option coalesced
with its default by `||` (strings: empty string is falsy; the card
array is always truthy when present), and each breakpoint field
individually coalesced via optional chaining `config.breakpoints?.x`. -/
def mergeConfig (c : ConfigInput) : FiligreeConfig :=
  { title := orFalsy c.title "Multiple options for easy integration"
    cards := c.cards.getD getDefaultCards
    containerWidth := orFalsy c.containerWidth "1000px"
    gridGap := orFalsy c.gridGap "15px"
    breakpoints :=
      { mobile := orFalsyNat (c.breakpoints.map Breakpoints.mobile) 768
        tablet := orFalsyNat (c.breakpoints.map Breakpoints.tablet) 900
        desktop := orFalsyNat (c.breakpoints.map Breakpoints.desktop) 1024 } }

/-- The element built by `createCardElement` (README lines 386-421),
structured: the class string, the inline grid styles, and the fields
of the generated inner markup (heading/description/icon/link for the
text variant, src/alt for the image variant). -/
structure CardElement where
  className : String
  gridColumn : Option String
  gridRow : Option String
  heading : Option String
  description : Option String
  icon : Option String
  link : Option CardLink
  src : Option String
  alt : Option String
deriving DecidableEq, Repr

/-- The class suffix for a card variant (README line 388). -/
def cardTypeClass : CardType → String
  | CardType.text => "text"
  | CardType.image => "image"

/-- README `createCardElement` (lines 386-421): sets the class from the
variant, sets inline grid column/row only when the state is the
desktop tier, then fills the text markup (` || '' ` on each field,
link emitted only when present) or the image markup (src and alt each
coalesced with their defaults by `||`). -/
def createCardElement (st : ComponentState) (card : IntegrationCard) : CardElement :=
  let base : CardElement :=
    { className := "dungeon-card dungeon-card-" ++ cardTypeClass card.type
      gridColumn := if st.isDesktop then some (toString card.gridPosition.column) else none
      gridRow := if st.isDesktop then some (toString card.gridPosition.row) else none
      heading := none, description := none, icon := none, link := none
      src := none, alt := none }
  match card.type with
  | CardType.text =>
      { base with
          heading := some (orFalsy card.title "")
          description := some (orFalsy card.description "")
          icon := some (orFalsy card.icon "")
          link := card.link }
  | CardType.image =>
      { base with
          src := some (orFalsy card.imageUrl
            "https://images.pexels.com/photos/2422286/pexels-photo-2422286.jpeg")
          alt := some (orFalsy card.altText "Integration preview") }

/-- Clearing the grid (`this.gridElement.innerHTML = ''`, README line
371): all prior children are discarded. -/
def clearChildren (_ : List CardElement) : List CardElement := []

/-- README `render` (lines 369-384), restricted to the grid children:
clears the prior children, then appends one created element per
configured card via `forEach`/`appendChild`. The title rewrite (lines
374-377) touches only the separate title element. -/
def renderGrid (prior : List CardElement) (cfg : FiligreeConfig)
    (st : ComponentState) : List CardElement :=
  cfg.cards.foldl (fun g card => g ++ [createCardElement st card])
    (clearChildren prior)

/-- README `getCards` (lines 355-357) at the value level: the contents
of the returned copy `[...this.config.cards]`. Freshness of the copy
is modelled separately on the heap. -/
def getCards (cfg : FiligreeConfig) : List IntegrationCard := cfg.cards

/-- README `addCard` (lines 359-362): `push` appends the card to the
owned array (followed by a re-render). -/
def addCard (cfg : FiligreeConfig) (card : IntegrationCard) : FiligreeConfig :=
  { cfg with cards := cfg.cards ++ [card] }

/-- README `removeCard` (lines 364-367): keeps exactly the cards whose
id differs from the argument (followed by a re-render). -/
def removeCard (cfg : FiligreeConfig) (id : Int) : FiligreeConfig :=
  { cfg with cards := cfg.cards.filter (fun c => c.id != id) }

/-- The container element as construction sees it: whether the grid
element and the title element are present inside it. -/
structure ContainerElement where
  hasGrid : Bool
  hasTitle : Bool
deriving DecidableEq, Repr

/-- The document as construction sees it: the
`.dungeon-integration-section` container, if present. -/
structure DOMDocument where
  container : Option ContainerElement
deriving DecidableEq, Repr

/-- A thrown JavaScript TypeError from dereferencing null. -/
inductive JsError where
  | typeError : String → JsError
deriving DecidableEq, Repr

/-- A fully constructed controller: merged config, initial responsive
state, whether the title element was found, and the grid children
produced by the initial render. -/
structure FiligreeController where
  config : FiligreeConfig
  state : ComponentState
  hasTitleElement : Bool
  gridChildren : List CardElement
deriving Repr

/-- The constructor (README lines 229-252) with its `init` call: merges
the config and computes the state, then queries the container with a
non-null assertion. At runtime the assertion is erased, so a missing
container makes the very next member access
(`this.container.querySelector`) throw a TypeError; a missing grid
element leaves `gridElement` null and `render` throws at
`gridElement.innerHTML`. Only when both elements exist does
construction complete, with the grid populated by the initial
render. -/
def construct (dom : DOMDocument) (input : ConfigInput) (width : Nat) :
    Except JsError FiligreeController :=
  let config := mergeConfig input
  let state := initState width config.breakpoints
  match dom.container with
  | none =>
      Except.error (JsError.typeError
        "cannot read querySelector of null container")
  | some c =>
      if c.hasGrid then
        Except.ok
          { config := config, state := state, hasTitleElement := c.hasTitle
            gridChildren := renderGrid [] config state }
      else
        Except.error (JsError.typeError
          "cannot set innerHTML of null gridElement")

/-- A CustomEvent as dispatched by `FiligreeState.emitEvent` (README
lines 881-887): the event name, the `cardId` carried in `detail`, and
the `bubbles` flag. -/
structure DispatchedEvent where
  name : String
  detailCardId : Int
  bubbles : Bool
deriving DecidableEq, Repr

/-- README `emitEvent` (lines 881-887): builds a bubbling CustomEvent
named `filigree:` followed by the event name, with the data as
`detail`, and dispatches it on the document. -/
def emitEvent (eventName : String) (cardId : Int) : DispatchedEvent :=
  { name := "filigree:" ++ eventName, detailCardId := cardId, bubbles := true }

/-- README `updateState` (lines 864-867) applied to the update object
passed by `selectCard`: spreading `{activeCard: cardId}` over the
current state changes only `activeCard`. -/
def updateStateActiveCard (current : ComponentState) (cardId : Int) :
    ComponentState :=
  { current with activeCard := some cardId }

/-- README `FiligreeState.selectCard` (lines 874-879), the repository's
only selection operation: unconditionally records the id as the
active card and emits one bubbling `filigree:card_selected` event
whose detail carries the id. There is no bounds check and no per-card
active marking. Returns the new state together with the list of
events dispatched by the call. -/
def selectCard (current : ComponentState) (cardId : Int) :
    ComponentState × List DispatchedEvent :=
  (updateStateActiveCard current cardId, [emitEvent "card_selected" cardId])

/-- Whether a generated element is an image card, read off its class
(README line 388). -/
def elementIsImage (e : CardElement) : Bool :=
  e.className == "dungeon-card dungeon-card-image"

/-- Whether a generated element is a text card, read off its class
(README line 388). -/
def elementIsText (e : CardElement) : Bool :=
  e.className == "dungeon-card dungeon-card-text"

/-- README `handleMobileLayout` (lines 314-320): walks the rendered
cards in document order and sets each `style.order` to its index.
Returns each card paired with its assigned order value. -/
def handleMobileLayout (cards : List CardElement) : List (CardElement × Nat) :=
  cards.enum.map (fun p => (p.2, p.1))

/-- The documented mobile promotion: every image card is assigned a
strictly smaller order value than every text card. -/
def imagesPromoted (l : List (CardElement × Nat)) : Prop :=
  ∀ p ∈ l, ∀ q ∈ l,
    elementIsImage p.1 = true → elementIsText q.1 = true → p.2 < q.2

instance (l : List (CardElement × Nat)) : Decidable (imagesPromoted l) := by
  unfold imagesPromoted
  infer_instance

/-- A registry of attached listeners on one target: event name paired
with the identity of the handler function. Distinct closures (each
`.bind(this)` call, each arrow function) get distinct identities. -/
abbrev ListenerList := List (String × Nat)

/-- The listener state of a controller: window listeners, container
listeners, and the allocator for fresh function identities. -/
structure ListenerEnv where
  windowListeners : ListenerList
  containerListeners : ListenerList
  nextFun : Nat
deriving DecidableEq, Repr

/-- DOM `removeEventListener`: removes the listener only when the very
same (event, function) pair is registered. -/
def removeListener (ls : ListenerList) (ev : String) (f : Nat) : ListenerList :=
  ls.filter (fun p => !(p.1 == ev && p.2 == f))

/-- README `setupEventListeners` (lines 279-289): attaches
`this.handleResize.bind(this)` to the window resize event — `.bind`
allocates a fresh function — and attaches a fresh anonymous arrow
function (which delegates to `handleLinkClick`) to the container
click event. -/
def setupEventListeners (env : ListenerEnv) : ListenerEnv :=
  let resizeHandler := env.nextFun
  let env1 : ListenerEnv :=
    { env with nextFun := env.nextFun + 1
               windowListeners := env.windowListeners ++ [("resize", resizeHandler)] }
  let clickHandler := env1.nextFun
  { env1 with nextFun := env1.nextFun + 1
              containerListeners := env1.containerListeners ++ [("click", clickHandler)] }

/-- README `destroy` (lines 423-426): calls `removeEventListener` with
`this.handleResize.bind(this)` and `this.handleLinkClick.bind(this)`.
Each `.bind` call evaluates to a fresh function, distinct from every
previously attached handler, so each removal targets a function that
was never registered. -/
def destroy (env : ListenerEnv) : ListenerEnv :=
  let freshResize := env.nextFun
  let env1 : ListenerEnv :=
    { env with nextFun := env.nextFun + 1
               windowListeners := removeListener env.windowListeners "resize" freshResize }
  let freshClick := env1.nextFun
  { env1 with nextFun := env1.nextFun + 1
              containerListeners :=
                removeListener env1.containerListeners "click" freshClick }

/-- A runtime JavaScript value, as far as the configuration surface
needs: strings, numbers, the card array, a breakpoints record, or any
foreign value attached under an unrecognized key. -/
inductive JsValue where
  | str : String → JsValue
  | num : Int → JsValue
  | cardList : List IntegrationCard → JsValue
  | bp : Breakpoints → JsValue
  | foreign : String → JsValue
deriving DecidableEq, Repr

/-- A runtime JavaScript object: ordered key/value pairs. -/
abbrev JsObject := List (String × JsValue)

/-- The keys of a runtime object. -/
def jsKeys (o : JsObject) : List String := o.map Prod.fst

/-- Property lookup on a runtime object. -/
def jsLookup (o : JsObject) (k : String) : Option JsValue :=
  (o.find? (fun p => p.1 == k)).map Prod.snd

/-- JavaScript object spread `{...base, ...ext}`: base keys keep their
positions with values overridden by ext, and keys only in ext are
appended. -/
def spreadMerge (base ext : JsObject) : JsObject :=
  base.map (fun p =>
      match jsLookup ext p.1 with
      | some v => (p.1, v)
      | none => p)
    ++ ext.filter (fun q => !(jsKeys base).contains q.1)

/-- The constructor merge (README lines 230-240) at the untyped object
level: the object literal assigned to `this.config` carries exactly
the five recognized keys, each read from the input by name (with its
`||` default), so every other key of the input is dropped. -/
def constructConfigObject (input : JsObject) : JsObject :=
  [ ("title", JsValue.str (match jsLookup input "title" with
      | some (JsValue.str s) => if s = "" then "Multiple options for easy integration" else s
      | _ => "Multiple options for easy integration"))
  , ("cards", match jsLookup input "cards" with
      | some (JsValue.cardList l) => JsValue.cardList l
      | _ => JsValue.cardList getDefaultCards)
  , ("containerWidth", JsValue.str (match jsLookup input "containerWidth" with
      | some (JsValue.str s) => if s = "" then "1000px" else s
      | _ => "1000px"))
  , ("gridGap", JsValue.str (match jsLookup input "gridGap" with
      | some (JsValue.str s) => if s = "" then "15px" else s
      | _ => "15px"))
  , ("breakpoints", match jsLookup input "breakpoints" with
      | some (JsValue.bp b) =>
          JsValue.bp { mobile := if b.mobile = 0 then 768 else b.mobile
                       tablet := if b.tablet = 0 then 900 else b.tablet
                       desktop := if b.desktop = 0 then 1024 else b.desktop }
      | _ => JsValue.bp defaultBreakpoints) ]

/-- README `updateConfig` (lines 350-353) at the untyped object level:
`this.config = {...this.config, ...newConfig}` spreads every key of
the argument into the owned config (followed by a re-render). -/
def updateConfigObject (cfg newCfg : JsObject) : JsObject :=
  spreadMerge cfg newCfg

/-- A heap of card arrays: references paired with contents, plus the
next fresh reference. Models JavaScript array identity. -/
structure CardArrayHeap where
  arrays : List (Nat × List IntegrationCard)
  next : Nat
deriving Repr

/-- Reading the contents of an array reference. -/
def heapLookup (h : CardArrayHeap) (r : Nat) : Option (List IntegrationCard) :=
  (h.arrays.find? (fun p => p.1 == r)).map Prod.snd

/-- Overwriting the contents behind an array reference in place. -/
def heapSet (h : CardArrayHeap) (r : Nat) (v : List IntegrationCard) :
    CardArrayHeap :=
  { h with arrays := h.arrays.map (fun p => if p.1 == r then (r, v) else p) }

/-- Allocating a fresh array with the given contents. -/
def heapAlloc (h : CardArrayHeap) (v : List IntegrationCard) :
    Nat × CardArrayHeap :=
  (h.next, { arrays := h.arrays ++ [(h.next, v)], next := h.next + 1 })

/-- README `getCards` (lines 355-357) on the heap:
`return [...this.config.cards]` allocates a fresh array holding the
same elements as the array behind the controller's reference. -/
def getCardsAlloc (h : CardArrayHeap) (cardsRef : Nat) :
    Nat × CardArrayHeap :=
  heapAlloc h ((heapLookup h cardsRef).getD [])

/-- A caller mutating an array it holds: replaces the contents behind
the reference by any function of its current contents (push, splice,
clear, ...). -/
def mutateArray (h : CardArrayHeap) (r : Nat)
    (f : List IntegrationCard → List IntegrationCard) : CardArrayHeap :=
  heapSet h r (f ((heapLookup h r).getD []))

/-- A concrete text card used to instantiate theorems. -/
def sampleTextCard : IntegrationCard :=
  { id := 101, type := CardType.text, title := some "Sample text"
    description := some "Sample description", icon := none
    imageUrl := none, altText := none, link := none
    gridPosition := { column := 1, row := 1 } }

/-- A concrete image card with an empty `altText`, used to instantiate
theorems at the falsy-string edge case. -/
def sampleImageCard : IntegrationCard :=
  { id := 102, type := CardType.image, title := none, description := none
    icon := none, imageUrl := some "https://example.com/a.jpeg"
    altText := some "", link := none
    gridPosition := { column := 2, row := 1 } }

/-- The new card added in the README unit test (id 7, a text card). -/
def sampleNewCard : IntegrationCard :=
  { id := 7, type := CardType.text, title := some "New Integration"
    description := some "Test description", icon := none
    imageUrl := none, altText := none, link := none
    gridPosition := { column := 1, row := 4 } }

/-- C1 counterexample: at viewport width 500 with the default
breakpoints, the constructor (and `handleResize`) set both `isMobile`
and `isTablet`, so the number of true tier flags is two, not one. -/
theorem c1_counterexample :
    tierFlagCount (initState 500 defaultBreakpoints) = 2 ∧
      tierFlagCount (handleResizeState 500 defaultBreakpoints) = 2 := by
  constructor <;> decide

/-- C1 (amended): for every viewport width and breakpoints, exactly one
of `isTablet`, `isDesktop` is true in the state produced by the
constructor and by `handleResize`; and whenever the mobile breakpoint
is at most the tablet breakpoint, `isMobile` implies `isTablet`, so at
mobile widths two flags are set rather than one. -/
theorem c1_tier_flags (width : Nat) (bp : Breakpoints)
    (h : bp.mobile ≤ bp.tablet) :
    (initState width bp).isTablet = !(initState width bp).isDesktop ∧
      (handleResizeState width bp).isTablet
        = !(handleResizeState width bp).isDesktop ∧
      ((initState width bp).isMobile = true →
        (initState width bp).isTablet = true) ∧
      ((handleResizeState width bp).isMobile = true →
        (handleResizeState width bp).isTablet = true) := by
  refine ⟨?_, ?_, ?_, ?_⟩ <;>
    simp only [initState, handleResizeState, ← decide_not, decide_eq_decide,
      decide_eq_true_eq] <;>
    omega

/-- C1 witness: the amended statement instantiated at width 500 and the
default breakpoints. -/
theorem c1_tier_flags_witness :
    (initState 500 defaultBreakpoints).isTablet
      = !(initState 500 defaultBreakpoints).isDesktop :=
  (c1_tier_flags 500 defaultBreakpoints (by decide)).1

/-- C2 counterexample: with the default six cards the valid indices are
0-5, yet `selectCard` at the out-of-range index 6 still changes the
state (it records the index as active) and still dispatches one
event, so the out-of-range half of the claim is false. -/
theorem c2_counterexample :
    (selectCard { isMobile := false, isTablet := false, isDesktop := true
                  activeCard := none } 6).1
        ≠ { isMobile := false, isTablet := false, isDesktop := true
            activeCard := none } ∧
      (selectCard { isMobile := false, isTablet := false, isDesktop := true
                    activeCard := none } 6).2.length = 1 := by
  constructor
  · intro hcontra
    exact Option.noConfusion (congrArg ComponentState.activeCard hcontra)
  · rfl

/-- C2 (amended): `selectCard(i)` is unconditional: for every current
state and every index, it records the index as the active card,
changes nothing else in the state, and dispatches exactly one
bubbling `filigree:card_selected` event whose detail carries that
index as `cardId`; there is no bounds check and no per-card active
marking. -/
theorem c2_selectCard_unconditional (s : ComponentState) (i : Int) :
    (selectCard s i).1 = { s with activeCard := some i } ∧
      (selectCard s i).2
        = [{ name := "filigree:card_selected", detailCardId := i
             bubbles := true }] :=
  ⟨rfl, rfl⟩

/-- C3 counterexample: with the container element absent from the
document, construction does not complete and fall back to defaults;
it throws a TypeError from dereferencing the null container. -/
theorem c3_counterexample :
    construct { container := none } {} 1200
      = Except.error (JsError.typeError
          "cannot read querySelector of null container") := rfl

/-- C3 (amended): construction completes exactly when the document has
the container element with the grid element inside it; a missing
container (or grid) makes construction throw a TypeError from a null
dereference rather than fail silently. Config defaults are applied
regardless, before the DOM access. -/
theorem c3_construct_requires_dom (dom : DOMDocument) (input : ConfigInput)
    (width : Nat) :
    (∃ ctl, construct dom input width = Except.ok ctl) ↔
      (∃ c, dom.container = some c ∧ c.hasGrid = true) := by
  obtain ⟨container⟩ := dom
  cases container with
  | none => simp [construct]
  | some c =>
      obtain ⟨hg, ht⟩ := c
      cases hg <;> simp [construct]

/-- C4: starting from no listeners, `setupEventListeners` attaches the
resize handler (function 0) to the window and the click arrow
function (function 1) to the container; `destroy` then removes
neither, because each of its `removeEventListener` calls passes a
freshly created `.bind` closure that was never attached. Both
listeners remain registered after `destroy`. -/
theorem c4_destroy_removes_nothing :
    (destroy (setupEventListeners
        { windowListeners := [], containerListeners := [], nextFun := 0 })).windowListeners
        = [("resize", 0)] ∧
      (destroy (setupEventListeners
          { windowListeners := [], containerListeners := [], nextFun := 0 })).containerListeners
        = [("click", 1)] ∧
      (setupEventListeners
          { windowListeners := [], containerListeners := [], nextFun := 0 }).windowListeners
        = [("resize", 0)] ∧
      (setupEventListeners
          { windowListeners := [], containerListeners := [], nextFun := 0 }).containerListeners
        = [("click", 1)] := by
  refine ⟨?_, ?_, rfl, rfl⟩ <;> rfl

/-- Mapping the swap over an enumeration and projecting the elements
gives back the original list. -/
theorem enumFrom_swap_map_fst (l : List CardElement) (n : Nat) :
    ((l.enumFrom n).map (fun p : Nat × CardElement => (p.2, p.1))).map
        Prod.fst = l := by
  induction l generalizing n with
  | nil => rfl
  | cons a t ih => simp [List.enumFrom, ih]

/-- Mapping the swap over an enumeration and projecting the indices
gives the consecutive range starting at the initial index. -/
theorem enumFrom_swap_map_snd (l : List CardElement) (n : Nat) :
    ((l.enumFrom n).map (fun p : Nat × CardElement => (p.2, p.1))).map
        Prod.snd = List.range' n l.length := by
  induction l generalizing n with
  | nil => rfl
  | cons a t ih => simp [List.enumFrom, List.range', ih]

/-- C5 counterexample: on the mobile tier, running the mobile layout
over a rendered text card followed by an image card assigns the text
card order 0 and the image card order 1, so the image card is not
promoted ahead of the text card. -/
theorem c5_counterexample :
    elementIsText
        (createCardElement (initState 500 defaultBreakpoints) sampleTextCard)
        = true ∧
      elementIsImage
        (createCardElement (initState 500 defaultBreakpoints) sampleImageCard)
        = true ∧
      ¬ imagesPromoted (handleMobileLayout
        [ createCardElement (initState 500 defaultBreakpoints) sampleTextCard
        , createCardElement (initState 500 defaultBreakpoints) sampleImageCard ]) := by
  refine ⟨rfl, rfl, ?_⟩
  intro hcontra
  have := hcontra
    (createCardElement (initState 500 defaultBreakpoints) sampleImageCard, 1)
    (by decide)
    (createCardElement (initState 500 defaultBreakpoints) sampleTextCard, 0)
    (by decide) rfl rfl
  omega

/-- C5 (amended): `handleMobileLayout` assigns every rendered card an
order value equal to its current index — the order values are exactly
0, 1, 2, ... in document order — so the visual order is sequential
but identical to the existing card sequence; no image card is moved
ahead of any text card. -/
theorem c5_mobile_layout_keeps_order (cards : List CardElement) :
    (handleMobileLayout cards).map Prod.fst = cards ∧
      (handleMobileLayout cards).map Prod.snd = List.range cards.length := by
  constructor
  · simpa [handleMobileLayout, List.enum] using enumFrom_swap_map_fst cards 0
  · simpa [handleMobileLayout, List.enum, List.range_eq_range'] using
      enumFrom_swap_map_snd cards 0

/-- C6: the scenario of the README unit tests against the default
configuration. The first default card has id 1; `getCards` returns
six cards; after `addCard` of any card whose id differs from 1 the
list has seven cards ending in the new card; after `removeCard` of
the first id the list is back to six cards and its first card has
changed. -/
theorem c6_default_scenario (newCard : IntegrationCard)
    (h : newCard.id ≠ 1) :
    ((getCards (mergeConfig {})).head?.map (fun c => c.id)) = some 1 ∧
      (getCards (mergeConfig {})).length = 6 ∧
      (getCards (addCard (mergeConfig {}) newCard)).length = 7 ∧
      (getCards (addCard (mergeConfig {}) newCard)).getLast? = some newCard ∧
      (getCards (removeCard (addCard (mergeConfig {}) newCard) 1)).length = 6 ∧
      (getCards (removeCard (addCard (mergeConfig {}) newCard) 1)).head?
        ≠ (getCards (mergeConfig {})).head? := by
  have hb : (newCard.id != 1) = true := by
    simpa using h
  have hcards : (removeCard (addCard (mergeConfig {}) newCard) 1).cards
      = getDefaultCards.tail ++ [newCard] := by
    show (getDefaultCards ++ [newCard]).filter (fun c => c.id != 1)
        = getDefaultCards.tail ++ [newCard]
    rw [List.filter_append]
    have h1 : getDefaultCards.filter (fun c => c.id != 1)
        = getDefaultCards.tail := by decide
    have h2 : [newCard].filter (fun c => c.id != 1) = [newCard] := by
      simp [List.filter_cons, hb]
    rw [h1, h2]
  refine ⟨rfl, rfl, ?_, ?_, ?_, ?_⟩
  · show (getDefaultCards ++ [newCard]).length = 7
    rw [List.length_append]
    rfl
  · show (getDefaultCards ++ [newCard]).getLast? = some newCard
    exact List.getLast?_concat _
  · show (removeCard (addCard (mergeConfig {}) newCard) 1).cards.length = 6
    rw [hcards, List.length_append]
    rfl
  · show (removeCard (addCard (mergeConfig {}) newCard) 1).cards.head?
        ≠ (getCards (mergeConfig {})).head?
    rw [hcards]
    have hhead : (getDefaultCards.tail ++ [newCard]).head?
        = getDefaultCards.tail.head? := rfl
    rw [hhead]
    decide

/-- C6 witness: the scenario instantiated at the unit test card
(id 7). -/
theorem c6_default_scenario_witness :
    (getCards (addCard (mergeConfig {}) sampleNewCard)).length = 7 ∧
      (getCards (addCard (mergeConfig {}) sampleNewCard)).getLast?
        = some sampleNewCard ∧
      (getCards (removeCard (addCard (mergeConfig {}) sampleNewCard) 1)).length
        = 6 :=
  ⟨(c6_default_scenario sampleNewCard (by decide)).2.2.1,
   (c6_default_scenario sampleNewCard (by decide)).2.2.2.1,
   (c6_default_scenario sampleNewCard (by decide)).2.2.2.2.1⟩

/-- Overriding values under existing keys preserves the key list. -/
theorem keys_override_eq (base ext : JsObject) :
    (base.map (fun p =>
        match jsLookup ext p.1 with
        | some v => (p.1, v)
        | none => p)).map Prod.fst = jsKeys base := by
  unfold jsKeys
  induction base with
  | nil => rfl
  | cons a t ih =>
      simp only [List.map_cons]
      cases hl : jsLookup ext a.1 <;> simp [hl, ih]

/-- Every key of the spread argument is a key of the spread result. -/
theorem mem_keys_spreadMerge (base ext : JsObject) (k : String)
    (hk : k ∈ jsKeys ext) : k ∈ jsKeys (spreadMerge base ext) := by
  unfold spreadMerge jsKeys
  rw [List.map_append]
  by_cases hb : k ∈ jsKeys base
  · refine List.mem_append.mpr (Or.inl ?_)
    rw [keys_override_eq base ext]
    exact hb
  · refine List.mem_append.mpr (Or.inr ?_)
    obtain ⟨p, hp, hpk⟩ := List.mem_map.mp hk
    refine List.mem_map.mpr ⟨p, List.mem_filter.mpr ⟨hp, ?_⟩, hpk⟩
    have hcontains : (jsKeys base).contains p.1 = false := by
      rw [hpk]
      simpa using hb
    show (!(jsKeys base).contains p.1) = true
    rw [hcontains]
    rfl

/-- C7 counterexample: after `updateConfig` with an object carrying the
unrecognized key `theme`, that key does appear in the controller's
owned config, contradicting the claim that unrecognized keys never
appear there. -/
theorem c7_counterexample :
    "theme" ∈ jsKeys (updateConfigObject (constructConfigObject [])
      [("theme", JsValue.foreign "theme settings")]) := by
  decide

/-- C7 (amended): the constructor ignores unrecognized keys — its owned
config object carries exactly the five recognized keys, whatever the
input — and each recognized option is individually defaulted when
omitted; but `updateConfig` spreads every key of its argument into
the owned config, so unrecognized keys passed to `updateConfig` do
appear there. -/
theorem c7_config_surface (input : ConfigInput) (obj ext : JsObject)
    (k : String) :
    jsKeys (constructConfigObject obj)
        = ["title", "cards", "containerWidth", "gridGap", "breakpoints"] ∧
      (input.title = none →
        (mergeConfig input).title = "Multiple options for easy integration") ∧
      (input.cards = none → (mergeConfig input).cards = getDefaultCards) ∧
      (input.containerWidth = none →
        (mergeConfig input).containerWidth = "1000px") ∧
      (input.gridGap = none → (mergeConfig input).gridGap = "15px") ∧
      (input.breakpoints = none →
        (mergeConfig input).breakpoints = defaultBreakpoints) ∧
      (k ∈ jsKeys ext →
        k ∈ jsKeys (updateConfigObject (constructConfigObject obj) ext)) := by
  refine ⟨rfl, ?_, ?_, ?_, ?_, ?_, ?_⟩
  · intro h; simp [mergeConfig, orFalsy, h]
  · intro h; simp [mergeConfig, h]
  · intro h; simp [mergeConfig, orFalsy, h]
  · intro h; simp [mergeConfig, orFalsy, h]
  · intro h; simp [mergeConfig, orFalsyNat, h, defaultBreakpoints]
  · intro h; exact mem_keys_spreadMerge _ ext k h

/-- C7 witness: the amended statement instantiated with the empty input
and an update carrying the unrecognized key `theme`. -/
theorem c7_config_surface_witness :
    (mergeConfig {}).title = "Multiple options for easy integration" ∧
      "theme" ∈ jsKeys (updateConfigObject (constructConfigObject [])
        [("theme", JsValue.foreign "theme settings")]) :=
  ⟨(c7_config_surface {} [] [("theme", JsValue.foreign "theme settings")]
      "theme").2.1 rfl,
   (c7_config_surface {} [] [("theme", JsValue.foreign "theme settings")]
      "theme").2.2.2.2.2.2 (by decide)⟩

/-- Folding appendChild over a card list extends the accumulator by the
mapped elements. -/
theorem foldl_appendChild_eq_map (st : ComponentState) :
    ∀ (l : List IntegrationCard) (acc : List CardElement),
      l.foldl (fun g card => g ++ [createCardElement st card]) acc
        = acc ++ l.map (createCardElement st) := by
  intro l
  induction l with
  | nil => intro acc; simp
  | cons a t ih =>
      intro acc
      simp only [List.foldl_cons, List.map_cons]
      rw [ih]
      simp

/-- C8: whatever children the grid held before, `render` leaves it with
exactly one child per configured card — the element created for that
card — in the order of the configured card sequence. -/
theorem c8_render_children (prior : List CardElement) (cfg : FiligreeConfig)
    (st : ComponentState) :
    renderGrid prior cfg st = cfg.cards.map (createCardElement st) ∧
      (renderGrid prior cfg st).length = cfg.cards.length := by
  have h1 : renderGrid prior cfg st = cfg.cards.map (createCardElement st) := by
    show cfg.cards.foldl (fun g card => g ++ [createCardElement st card])
        (clearChildren prior) = cfg.cards.map (createCardElement st)
    rw [foldl_appendChild_eq_map st cfg.cards (clearChildren prior)]
    rfl
  exact ⟨h1, by rw [h1, List.length_map]⟩

/-- C9: the element generated for any image card carries a non-empty
alt text, also when the altText field of the card is absent or the
empty string (both falsy, both replaced by the default). -/
theorem c9_image_alt (st : ComponentState) (card : IntegrationCard)
    (h : card.type = CardType.image) :
    ∃ a, (createCardElement st card).alt = some a ∧ a ≠ "" := by
  refine ⟨orFalsy card.altText "Integration preview", ?_, ?_⟩
  · simp [createCardElement, h]
  · unfold orFalsy
    cases card.altText with
    | none => simp
    | some s =>
        by_cases hs : s = "" <;> simp [hs]

/-- C9 witness: the generated element for a concrete image card whose
altText is the empty string still has a non-empty alt. -/
theorem c9_image_alt_witness :
    ∃ a, (createCardElement (initState 500 defaultBreakpoints)
        sampleImageCard).alt = some a ∧ a ≠ "" :=
  c9_image_alt (initState 500 defaultBreakpoints) sampleImageCard rfl

/-- Setting the contents behind one reference leaves lookups of a
different reference untouched. -/
theorem find_after_set (l : List (Nat × List IntegrationCard))
    (r r2 : Nat) (v : List IntegrationCard) (hne : r ≠ r2) :
    (l.map (fun p => if p.1 == r2 then (r2, v) else p)).find?
        (fun p => p.1 == r)
      = l.find? (fun p => p.1 == r) := by
  induction l with
  | nil => rfl
  | cons a t ih =>
      simp only [List.map_cons]
      by_cases h2 : a.1 = r2
      · have hr2r : ((r2 : Nat) == r) = false := by
          simp [Ne.symm hne]
        have har : (a.1 == r) = false := by
          simp [h2, Ne.symm hne]
        rw [if_pos (by simp [h2])]
        rw [List.find?_cons_of_neg _ (by simp [hr2r])]
        rw [List.find?_cons_of_neg _ (by simp [har])]
        exact ih
      · rw [if_neg (by simp [h2])]
        by_cases har : a.1 = r
        · rw [List.find?_cons_of_pos _ (by simp [har])]
          rw [List.find?_cons_of_pos _ (by simp [har])]
        · rw [List.find?_cons_of_neg _ (by simp [har])]
          rw [List.find?_cons_of_neg _ (by simp [har])]
          exact ih

/-- Appending an entry under a fresh reference leaves lookups of other
references untouched. -/
theorem find_append_fresh (l : List (Nat × List IntegrationCard))
    (r n : Nat) (v : List IntegrationCard) (hne : r ≠ n) :
    (l ++ [(n, v)]).find? (fun p => p.1 == r)
      = l.find? (fun p => p.1 == r) := by
  induction l with
  | nil =>
      simp only [List.nil_append]
      rw [List.find?_cons_of_neg _ (by simp [Ne.symm hne])]
  | cons a t ih =>
      by_cases har : a.1 = r
      · rw [List.cons_append]
        rw [List.find?_cons_of_pos (t ++ [(n, v)]) (by simp [har]),
          List.find?_cons_of_pos t (by simp [har])]
      · rw [List.cons_append]
        rw [List.find?_cons_of_neg _ (by simp [har])]
        rw [List.find?_cons_of_neg _ (by simp [har])]
        exact ih

/-- Looking up a reference that occurs only as the appended last entry
finds that entry. -/
theorem find_append_self (l : List (Nat × List IntegrationCard))
    (n : Nat) (v : List IntegrationCard) (hwf : ∀ p ∈ l, p.1 ≠ n) :
    (l ++ [(n, v)]).find? (fun p => p.1 == n) = some (n, v) := by
  induction l with
  | nil => simp [List.find?]
  | cons a t ih =>
      rw [List.cons_append]
      rw [List.find?_cons_of_neg _ (by simp [hwf a (List.mem_cons_self a t)])]
      exact ih (fun p hp => hwf p (List.mem_cons_of_mem a hp))

/-- C10: `getCards` allocates a fresh array: in any well-formed heap
(all references below the allocator, the controller's reference
among them), the reference returned by `getCards` holds a copy of the
controller's card list, and mutating the returned array in any way
leaves the array behind the controller's own reference unchanged. -/
theorem c10_getCards_returns_fresh_copy (h : CardArrayHeap) (cardsRef : Nat)
    (f : List IntegrationCard → List IntegrationCard)
    (hr : cardsRef < h.next)
    (hwf : ∀ p ∈ h.arrays, p.1 < h.next) :
    heapLookup (mutateArray (getCardsAlloc h cardsRef).2
        (getCardsAlloc h cardsRef).1 f) cardsRef
      = heapLookup h cardsRef ∧
    heapLookup (getCardsAlloc h cardsRef).2 (getCardsAlloc h cardsRef).1
      = some ((heapLookup h cardsRef).getD []) := by
  constructor
  · simp only [mutateArray, getCardsAlloc, heapAlloc, heapSet, heapLookup]
    rw [find_after_set _ cardsRef h.next _ (Nat.ne_of_lt hr)]
    rw [find_append_fresh _ cardsRef h.next _ (Nat.ne_of_lt hr)]
  · simp only [getCardsAlloc, heapAlloc, heapLookup]
    rw [find_append_self _ h.next _
      (fun p hp => Nat.ne_of_lt (hwf p hp))]
    rfl

/-- C10 witness: a concrete heap holding the default card list at
reference 0; clearing the array returned by `getCards` leaves the
controller's array unchanged. -/
theorem c10_getCards_returns_fresh_copy_witness :
    heapLookup (mutateArray
        (getCardsAlloc { arrays := [(0, getDefaultCards)], next := 1 } 0).2
        (getCardsAlloc { arrays := [(0, getDefaultCards)], next := 1 } 0).1
        (fun _ => [])) 0
      = heapLookup { arrays := [(0, getDefaultCards)], next := 1 } 0 :=
  (c10_getCards_returns_fresh_copy
    { arrays := [(0, getDefaultCards)], next := 1 } 0 (fun _ => [])
    (by decide) (by decide)).1
